import Mathlib

/-!
Verification of the RigArchitect compatibility-and-estimation engine.

The definitions below are a shallow embedding of `src/main.py` (functions
`oid`, `create_build`, `compatibility_issues`, `estimate_wattage`) over the
data shapes of `src/schemas.py`.  The MongoDB component collection is
modelled as a function from identifier strings to optional `Component`
records; `bson.ObjectId` validation is modelled as "24 hexadecimal
characters", which is exactly the string format the bson library accepts.
Python truthiness tests on optional attributes (`comp.get("tdp")`,
`cpu.get("socket")` and so on) are modelled faithfully: a declared value of
`0`, the empty string, or the empty list is falsy and behaves like an
absent attribute.  Python's `int(total_tdp * 1.3)` is modelled as the exact
truncation `total_tdp * 13 / 10`, which is the value the IEEE-double
expression takes at every realistic magnitude.
-/

deriving instance DecidableEq for Except

namespace RigArchitect

/-- Component catalog entry, mirroring `schemas.Component`.  Fields carrying
a pydantic `ge=0` bound (`tdp`, `ram_speed`, `ram_slots`, `gpu_length_mm`,
`max_gpu_length_mm`, `psu_wattage`) are modelled as `Nat`; the unbounded
integer fields (`cooler_height_mm`, `case_max_cooler_height_mm`, `m2_slots`)
as `Int`; `price` (a float) as an exact rational. -/
structure Component where
  name : String
  type : String
  brand : Option String := none
  model : Option String := none
  socket : Option String := none
  chipset : Option String := none
  tdp : Option Nat := none
  ram_type : Option String := none
  ram_speed : Option Nat := none
  ram_slots : Option Nat := none
  pcie_version : Option String := none
  gpu_length_mm : Option Nat := none
  max_gpu_length_mm : Option Nat := none
  psu_wattage : Option Nat := none
  psu_form_factor : Option String := none
  case_supported_psu : Option (List String) := none
  case_motherboard_support : Option (List String) := none
  motherboard_form_factor : Option String := none
  cooler_height_mm : Option Int := none
  case_max_cooler_height_mm : Option Int := none
  storage_interface : Option String := none
  m2_slots : Option Int := none
  price : Option ℚ := none
  image : Option String := none
  url : Option String := none
deriving Repr, DecidableEq

/-- Reference from a build to a catalog component, mirroring
`schemas.BuildComponent` (the role is stored under the key `type`). -/
structure BuildComponent where
  component_id : String
  type : String
deriving Repr, DecidableEq

/-- Build document, mirroring `schemas.Build`. -/
structure Build where
  title : String
  description : Option String := none
  creator_id : Option String := none
  is_anchor : Bool := false
  components : List BuildComponent
  total_price : Option ℚ := none
  likes : Int := 0
deriving Repr, DecidableEq

/-- The component collection of the document store: identifier string to
optional catalog entry. -/
abbrev Catalog := String → Option Component

/-- Errors raised by the embedded endpoints (as `HTTPException`s in
`main.py`): `invalidId` is the 400 "Invalid id" of `oid`, `componentNotFound`
the 404 naming the missing identifier in `create_build`, and
`buildIncompatible` the 400 carrying the violation list. -/
inductive ApiError where
  | invalidId : ApiError
  | componentNotFound (id : String) : ApiError
  | buildIncompatible (issues : List String) : ApiError
deriving Repr, DecidableEq

/-- Python's `str.lower()`, modelled per character (the compatibility
attributes are ASCII identifiers such as socket and RAM-type names). -/
def pyLower (s : String) : String := ⟨s.data.map Char.toLower⟩

/-- Hexadecimal character test, used to model `bson.ObjectId` parsing. -/
def isHexChar (c : Char) : Bool :=
  c.isDigit || ('a' ≤ c && c ≤ 'f') || ('A' ≤ c && c ≤ 'F')

/-- Validity of a record key: `bson.ObjectId(id_str)` succeeds exactly on
24-character hexadecimal strings.  `main.oid` wraps this check and raises
the 400 "Invalid id" error on failure. -/
def isValidOid (s : String) : Bool :=
  s.length == 24 && s.data.all isHexChar

/-- One store lookup guarded by `oid`: `db["component"].find_one({"_id":
oid(id)})`.  The identifier is validated before the store is consulted; a
well-formed identifier with no catalog entry yields `none` (Python `None`). -/
def lookupRef (cat : Catalog) (id : String) : Except ApiError (Option Component) :=
  if isValidOid id then Except.ok (cat id) else Except.error ApiError.invalidId

/-- The accumulation loop of `estimate_wattage`: per reference, resolve and
add the component's `tdp` when it is declared and truthy (`comp and
comp.get("tdp")`); a missing component is skipped. -/
def estimateTdpSum (cat : Catalog) : List BuildComponent → Nat → Except ApiError Nat
  | [], acc => Except.ok acc
  | bc :: rest, acc =>
    match lookupRef cat bc.component_id with
    | Except.error e => Except.error e
    | Except.ok none => estimateTdpSum cat rest acc
    | Except.ok (some c) =>
      match c.tdp with
      | none => estimateTdpSum cat rest acc
      | some t =>
        if t = 0 then estimateTdpSum cat rest acc
        else estimateTdpSum cat rest (acc + t)

/-- Embedding of `main.estimate_wattage`: sum the truthy `tdp` values over
all references of the build, then `int(total_tdp * 1.3) if total_tdp else 0`
(the float product modelled as exact truncation). -/
def estimate_wattage (cat : Catalog) (b : Build) : Except ApiError Nat :=
  match estimateTdpSum cat b.components 0 with
  | Except.error e => Except.error e
  | Except.ok total => Except.ok (if total = 0 then 0 else total * 13 / 10)

/-- Rule 1 of `compatibility_issues` (socket match).  The guard `cpu and
mobo and cpu.get("socket") and mobo.get("socket")` requires both role slots
resolved and both socket strings truthy (non-empty); comparison is
case-insensitive via `.lower()`. -/
def socketRule (cpu mobo : Option Component) : Option String :=
  match cpu, mobo with
  | some c, some m =>
    match c.socket, m.socket with
    | some cs, some ms =>
      if cs = "" ∨ ms = "" then none
      else if pyLower cs ≠ pyLower ms then
        some ("CPU socket " ++ cs ++ " not compatible with motherboard " ++ ms)
      else none
    | _, _ => none
  | _, _ => none

/-- Rule 2 of `compatibility_issues` (RAM type match). -/
def ramRule (ram mobo : Option Component) : Option String :=
  match ram, mobo with
  | some r, some m =>
    match r.ram_type, m.ram_type with
    | some rt, some mt =>
      if rt = "" ∨ mt = "" then none
      else if pyLower rt ≠ pyLower mt then
        some ("RAM type " ++ rt ++ " not compatible with motherboard " ++ mt)
      else none
    | _, _ => none
  | _, _ => none

/-- Rule 3 of `compatibility_issues` (GPU length against case clearance).
The Python guard `gpu.get("gpu_length_mm") and case.get("max_gpu_length_mm")`
treats a declared value of 0 as falsy, so a zero on either side disables the
rule. -/
def gpuRule (gpu case_ : Option Component) : Option String :=
  match gpu, case_ with
  | some g, some k =>
    match g.gpu_length_mm, k.max_gpu_length_mm with
    | some gl, some ml =>
      if gl = 0 ∨ ml = 0 then none
      else if gl > ml then some "GPU length exceeds case maximum"
      else none
    | _, _ => none
  | _, _ => none

/-- Rule 4 of `compatibility_issues` (cooler height against case clearance). -/
def coolerRule (cooler case_ : Option Component) : Option String :=
  match cooler, case_ with
  | some c, some k =>
    match c.cooler_height_mm, k.case_max_cooler_height_mm with
    | some ch, some mh =>
      if ch = 0 ∨ mh = 0 then none
      else if ch > mh then some "Cooler height exceeds case maximum"
      else none
    | _, _ => none
  | _, _ => none

/-- Rule 5 of `compatibility_issues` (PSU sizing).  The guard `psu and
psu.get("psu_wattage") and est_watts` requires a truthy (non-zero) declared
wattage and a non-zero estimate. -/
def psuRule (psu : Option Component) (est_watts : Nat) : Option String :=
  match psu with
  | some p =>
    match p.psu_wattage with
    | some w =>
      if w = 0 ∨ est_watts = 0 then none
      else if w < est_watts then
        some ("PSU wattage too low. Estimated " ++ toString est_watts ++
          "W, PSU is " ++ toString w ++ "W")
      else none
    | none => none
  | none => none

/-- Rule 6 of `compatibility_issues` (PSU form factor accepted by case).
Membership is the exact (case-sensitive) Python `in` on a list of strings;
an empty list is falsy and disables the rule. -/
def psuFormRule (psu case_ : Option Component) : Option String :=
  match psu, case_ with
  | some p, some k =>
    match p.psu_form_factor, k.case_supported_psu with
    | some ff, some sup =>
      if ff = "" ∨ sup = [] then none
      else if sup.contains ff then none
      else some "PSU form factor not supported by case"
    | _, _ => none
  | _, _ => none

/-- Rule 7 of `compatibility_issues` (motherboard form factor accepted by
case). -/
def moboFormRule (mobo case_ : Option Component) : Option String :=
  match mobo, case_ with
  | some m, some k =>
    match m.motherboard_form_factor, k.case_motherboard_support with
    | some ff, some sup =>
      if ff = "" ∨ sup = [] then none
      else if sup.contains ff then none
      else some "Motherboard form factor not supported by case"
    | _, _ => none
  | _, _ => none

/-- The dict comprehension of `compatibility_issues`: `{bc.type:
db["component"].find_one({"_id": oid(bc.component_id)}) for bc in
build.components}`.  Entries are processed in list order, a later reference
with the same role overwrites an earlier one, and the stored value may be
`None` (an unresolved lookup), which is indistinguishable from an absent key
under `comps.get(role)`. -/
def buildRoleMap (cat : Catalog) :
    List BuildComponent → (String → Option Component) →
    Except ApiError (String → Option Component)
  | [], m => Except.ok m
  | bc :: rest, m =>
    match lookupRef cat bc.component_id with
    | Except.error e => Except.error e
    | Except.ok comp =>
      buildRoleMap cat rest (fun r => if r = bc.type then comp else m r)

/-- Embedding of `main.compatibility_issues`: resolve the role map, then
evaluate the seven rules in their fixed order, appending each violation
message; the wattage estimate is recomputed between rules 4 and 5 exactly as
in the source. -/
def compatibility_issues (cat : Catalog) (b : Build) : Except ApiError (List String) :=
  match buildRoleMap cat b.components (fun _ => none) with
  | Except.error e => Except.error e
  | Except.ok comps =>
    let cpu := comps "cpu"
    let mobo := comps "motherboard"
    let ram := comps "ram"
    let gpu := comps "gpu"
    let case_ := comps "case"
    let psu := comps "psu"
    let cooler := comps "cooler"
    let issues4 := (socketRule cpu mobo).toList ++ (ramRule ram mobo).toList ++
      (gpuRule gpu case_).toList ++ (coolerRule cooler case_).toList
    match estimate_wattage cat b with
    | Except.error e => Except.error e
    | Except.ok est_watts =>
      Except.ok (issues4 ++ (psuRule psu est_watts).toList ++
        (psuFormRule psu case_).toList ++ (moboFormRule mobo case_).toList)

/-- The pricing loop of `create_build`: every reference must resolve (a
missing catalog entry raises the 404 naming the identifier), and a truthy
declared price is accumulated. -/
def buildTotalPrice (cat : Catalog) : List BuildComponent → ℚ → Except ApiError ℚ
  | [], acc => Except.ok acc
  | bc :: rest, acc =>
    match lookupRef cat bc.component_id with
    | Except.error e => Except.error e
    | Except.ok none => Except.error (ApiError.componentNotFound bc.component_id)
    | Except.ok (some c) =>
      match c.price with
      | none => buildTotalPrice cat rest acc
      | some p =>
        if p = 0 then buildTotalPrice cat rest acc
        else buildTotalPrice cat rest (acc + p)

/-- Embedding of `main.create_build`.  The build store is the `build`
collection as a list of documents; on success the client document is stored
with its `total_price` field overwritten by the recomputed total (the
`model_dump` dictionary keeps every other field), and the recomputed total is
returned.  On any error the store is unchanged. -/
def create_build (cat : Catalog) (store : List Build) (b : Build) :
    Except ApiError ℚ × List Build :=
  match buildTotalPrice cat b.components 0 with
  | Except.error e => (Except.error e, store)
  | Except.ok total =>
    match compatibility_issues cat b with
    | Except.error e => (Except.error e, store)
    | Except.ok problems =>
      if problems = [] then
        (Except.ok total, store ++ [{ b with total_price := some total }])
      else (Except.error (ApiError.buildIncompatible problems), store)

/-- Declared TDP of one reference as the spec words it: the resolved
component's `tdp`, a component without a declared TDP (or an unresolved
reference) contributing zero. -/
def declaredTdp (cat : Catalog) (bc : BuildComponent) : Nat :=
  match cat bc.component_id with
  | some c => c.tdp.getD 0
  | none => 0

/-- Sum of declared TDPs over a reference list (duplicates included). -/
def declaredTdpSum (cat : Catalog) (bcs : List BuildComponent) : Nat :=
  (bcs.map (declaredTdp cat)).sum

/-- Closed form of the wattage estimate on a build whose identifiers all
parse. -/
def estimateVal (cat : Catalog) (bcs : List BuildComponent) : Nat :=
  if declaredTdpSum cat bcs = 0 then 0 else declaredTdpSum cat bcs * 13 / 10

/-- Declared price of one reference: the resolved component's `price`, an
undeclared price contributing zero. -/
def declaredPrice (cat : Catalog) (bc : BuildComponent) : ℚ :=
  match cat bc.component_id with
  | some c => c.price.getD 0
  | none => 0

/-- Sum of current catalog prices over a reference list. -/
def priceSum (cat : Catalog) (bcs : List BuildComponent) : ℚ :=
  (bcs.map (declaredPrice cat)).sum

/-- Closed form of the role map the checker sees: the last reference
carrying a role wins, and its (possibly failed) lookup is the role's value. -/
def roleMapPure (cat : Catalog) (bcs : List BuildComponent) (role : String) :
    Option Component :=
  match bcs.reverse.find? (fun bc => bc.type == role) with
  | some bc => cat bc.component_id
  | none => none

/-- Closed form of the full violation list on a build whose identifiers all
parse. -/
def issuesOf (cat : Catalog) (b : Build) : List String :=
  (socketRule (roleMapPure cat b.components "cpu") (roleMapPure cat b.components "motherboard")).toList ++
  (ramRule (roleMapPure cat b.components "ram") (roleMapPure cat b.components "motherboard")).toList ++
  (gpuRule (roleMapPure cat b.components "gpu") (roleMapPure cat b.components "case")).toList ++
  (coolerRule (roleMapPure cat b.components "cooler") (roleMapPure cat b.components "case")).toList ++
  (psuRule (roleMapPure cat b.components "psu") (estimateVal cat b.components)).toList ++
  (psuFormRule (roleMapPure cat b.components "psu") (roleMapPure cat b.components "case")).toList ++
  (moboFormRule (roleMapPure cat b.components "motherboard") (roleMapPure cat b.components "case")).toList

/-! Helper lemmas: closed forms of the loops on inputs whose identifiers all
parse, and error propagation when one does not. -/

theorem estimateTdpSum_ok (cat : Catalog) (bcs : List BuildComponent)
    (h : ∀ bc ∈ bcs, isValidOid bc.component_id = true) :
    ∀ acc : Nat, estimateTdpSum cat bcs acc = Except.ok (acc + declaredTdpSum cat bcs) := by
  induction bcs with
  | nil => intro acc; simp [estimateTdpSum, declaredTdpSum]
  | cons bc rest ih =>
    intro acc
    have hbc : isValidOid bc.component_id = true := h bc (List.mem_cons_self bc rest)
    have hrest : ∀ x ∈ rest, isValidOid x.component_id = true :=
      fun x hx => h x (List.mem_cons_of_mem bc hx)
    have hsum : declaredTdpSum cat (bc :: rest) =
        declaredTdp cat bc + declaredTdpSum cat rest := by
      simp [declaredTdpSum]
    simp only [estimateTdpSum, lookupRef, hbc, if_true]
    cases hcat : cat bc.component_id with
    | none =>
      rw [ih hrest acc, hsum]
      simp [declaredTdp, hcat]
    | some c =>
      cases htdp : c.tdp with
      | none =>
        simp only [htdp]
        rw [ih hrest acc, hsum]
        simp [declaredTdp, hcat, htdp]
      | some t =>
        by_cases ht : t = 0
        · simp only [htdp, ht, reduceIte]
          rw [ih hrest acc, hsum]
          simp [declaredTdp, hcat, htdp, ht]
        · simp only [htdp, ht, reduceIte]
          rw [ih hrest (acc + t), hsum]
          simp [declaredTdp, hcat, htdp]
          omega

theorem estimate_wattage_ok (cat : Catalog) (b : Build)
    (h : ∀ bc ∈ b.components, isValidOid bc.component_id = true) :
    estimate_wattage cat b = Except.ok (estimateVal cat b.components) := by
  unfold estimate_wattage
  rw [estimateTdpSum_ok cat b.components h 0]
  simp [estimateVal]

theorem estimateTdpSum_invalid (cat : Catalog) (bcs : List BuildComponent)
    (h : ∃ bc ∈ bcs, isValidOid bc.component_id = false) :
    ∀ acc : Nat, estimateTdpSum cat bcs acc = Except.error ApiError.invalidId := by
  induction bcs with
  | nil => rcases h with ⟨bc, hmem, _⟩; cases hmem
  | cons bc rest ih =>
    intro acc
    by_cases hbc : isValidOid bc.component_id = true
    · have hrest : ∃ x ∈ rest, isValidOid x.component_id = false := by
        rcases h with ⟨x, hmem, hx⟩
        rcases List.mem_cons.mp hmem with hx1 | hx2
        · rw [hx1] at hx; rw [hbc] at hx; cases hx
        · exact ⟨x, hx2, hx⟩
      simp only [estimateTdpSum, lookupRef, hbc, if_true]
      cases hcat : cat bc.component_id with
      | none => simp only []; exact ih hrest acc
      | some c =>
        cases htdp : c.tdp with
        | none => simp only [htdp]; exact ih hrest acc
        | some t =>
          by_cases ht : t = 0
          · simp only [htdp, ht, reduceIte]; exact ih hrest acc
          · simp only [htdp, ht, reduceIte]; exact ih hrest (acc + t)
    · have hbc' : isValidOid bc.component_id = false := by
        cases hv : isValidOid bc.component_id
        · rfl
        · exact absurd hv hbc
      simp [estimateTdpSum, lookupRef, hbc']

theorem estimate_wattage_invalid (cat : Catalog) (b : Build)
    (h : ∃ bc ∈ b.components, isValidOid bc.component_id = false) :
    estimate_wattage cat b = Except.error ApiError.invalidId := by
  unfold estimate_wattage
  rw [estimateTdpSum_invalid cat b.components h 0]

theorem buildRoleMap_ok (cat : Catalog) (bcs : List BuildComponent)
    (h : ∀ bc ∈ bcs, isValidOid bc.component_id = true) :
    ∀ m : String → Option Component,
      buildRoleMap cat bcs m = Except.ok (fun r =>
        match bcs.reverse.find? (fun bc => bc.type == r) with
        | some bc => cat bc.component_id
        | none => m r) := by
  induction bcs with
  | nil => intro m; rfl
  | cons bc rest ih =>
    intro m
    have hbc : isValidOid bc.component_id = true := h bc (List.mem_cons_self bc rest)
    have hrest : ∀ x ∈ rest, isValidOid x.component_id = true :=
      fun x hx => h x (List.mem_cons_of_mem bc hx)
    simp only [buildRoleMap, lookupRef, hbc, if_true]
    rw [ih hrest]
    congr 1
    funext r
    rw [List.reverse_cons, List.find?_append]
    cases hf : rest.reverse.find? (fun x => x.type == r) with
    | some x => simp [Option.or]
    | none =>
      simp only [Option.or, List.find?_singleton]
      by_cases hr : bc.type = r
      · simp [hr]
      · have hr1 : (bc.type == r) = false := by
          simp [hr]
        have hr2 : ¬r = bc.type := fun hh => hr hh.symm
        simp [hr1, hr2]

theorem buildRoleMap_pure (cat : Catalog) (bcs : List BuildComponent)
    (h : ∀ bc ∈ bcs, isValidOid bc.component_id = true) :
    buildRoleMap cat bcs (fun _ => none) = Except.ok (roleMapPure cat bcs) := by
  rw [buildRoleMap_ok cat bcs h]
  rfl

theorem buildRoleMap_invalid (cat : Catalog) (bcs : List BuildComponent)
    (h : ∃ bc ∈ bcs, isValidOid bc.component_id = false) :
    ∀ m : String → Option Component,
      buildRoleMap cat bcs m = Except.error ApiError.invalidId := by
  induction bcs with
  | nil => rcases h with ⟨bc, hmem, _⟩; cases hmem
  | cons bc rest ih =>
    intro m
    by_cases hbc : isValidOid bc.component_id = true
    · have hrest : ∃ x ∈ rest, isValidOid x.component_id = false := by
        rcases h with ⟨x, hmem, hx⟩
        rcases List.mem_cons.mp hmem with hx1 | hx2
        · rw [hx1] at hx; rw [hbc] at hx; cases hx
        · exact ⟨x, hx2, hx⟩
      simp only [buildRoleMap, lookupRef, hbc, if_true]
      exact ih hrest _
    · have hbc' : isValidOid bc.component_id = false := by
        cases hv : isValidOid bc.component_id
        · rfl
        · exact absurd hv hbc
      simp [buildRoleMap, lookupRef, hbc']

theorem compatibility_issues_ok (cat : Catalog) (b : Build)
    (h : ∀ bc ∈ b.components, isValidOid bc.component_id = true) :
    compatibility_issues cat b = Except.ok (issuesOf cat b) := by
  unfold compatibility_issues
  rw [buildRoleMap_pure cat b.components h]
  simp only []
  rw [estimate_wattage_ok cat b h]
  simp only [issuesOf, List.append_assoc]

theorem compatibility_issues_invalid (cat : Catalog) (b : Build)
    (h : ∃ bc ∈ b.components, isValidOid bc.component_id = false) :
    compatibility_issues cat b = Except.error ApiError.invalidId := by
  unfold compatibility_issues
  rw [buildRoleMap_invalid cat b.components h (fun _ => none)]

theorem priceSum_cons (cat : Catalog) (bc : BuildComponent) (rest : List BuildComponent) :
    priceSum cat (bc :: rest) = declaredPrice cat bc + priceSum cat rest := by
  simp [priceSum]

theorem buildTotalPrice_ok_eq (cat : Catalog) (bcs : List BuildComponent) :
    ∀ (acc t : ℚ), buildTotalPrice cat bcs acc = Except.ok t →
      t = acc + priceSum cat bcs := by
  induction bcs with
  | nil =>
    intro acc t h
    simp [buildTotalPrice] at h
    simp [priceSum, ← h]
  | cons bc rest ih =>
    intro acc t h
    by_cases hv : isValidOid bc.component_id = true
    · simp only [buildTotalPrice, lookupRef, hv, if_true] at h
      cases hcat : cat bc.component_id with
      | none => simp only [hcat] at h; cases h
      | some c =>
        simp only [hcat] at h
        cases hp : c.price with
        | none =>
          simp only [hp] at h
          rw [ih acc t h, priceSum_cons]
          simp [declaredPrice, hcat, hp]
        | some p =>
          by_cases hp0 : p = 0
          · simp only [hp, hp0, reduceIte] at h
            rw [ih acc t h, priceSum_cons]
            simp [declaredPrice, hcat, hp, hp0]
          · simp only [hp, hp0, reduceIte] at h
            rw [ih (acc + p) t h, priceSum_cons]
            simp [declaredPrice, hcat, hp]
            ring
    · have hv' : isValidOid bc.component_id = false := by
        cases hvv : isValidOid bc.component_id
        · rfl
        · exact absurd hvv hv
      simp [buildTotalPrice, lookupRef, hv'] at h

theorem buildTotalPrice_missing (cat : Catalog) (bcs : List BuildComponent)
    (hvalid : ∀ bc ∈ bcs, isValidOid bc.component_id = true)
    (hmiss : ∃ bc ∈ bcs, cat bc.component_id = none) :
    ∀ acc : ℚ, ∃ id,
      buildTotalPrice cat bcs acc = Except.error (ApiError.componentNotFound id) ∧
      cat id = none ∧ ∃ bc ∈ bcs, bc.component_id = id := by
  induction bcs with
  | nil => rcases hmiss with ⟨bc, hmem, _⟩; cases hmem
  | cons bc rest ih =>
    intro acc
    have hbc : isValidOid bc.component_id = true := hvalid bc (List.mem_cons_self bc rest)
    have hrest : ∀ x ∈ rest, isValidOid x.component_id = true :=
      fun x hx => hvalid x (List.mem_cons_of_mem bc hx)
    simp only [buildTotalPrice, lookupRef, hbc, if_true]
    cases hcat : cat bc.component_id with
    | none =>
      refine ⟨bc.component_id, by simp only [], hcat, bc, List.mem_cons_self bc rest, rfl⟩
    | some c =>
      have hmiss' : ∃ x ∈ rest, cat x.component_id = none := by
        rcases hmiss with ⟨x, hmem, hx⟩
        rcases List.mem_cons.mp hmem with hx1 | hx2
        · rw [hx1] at hx; rw [hcat] at hx; cases hx
        · exact ⟨x, hx2, hx⟩
      cases hp : c.price with
      | none =>
        rcases ih hrest hmiss' acc with ⟨id, h1, h2, bc', hmem', h3⟩
        exact ⟨id, by simp only [hp]; exact h1, h2, bc', List.mem_cons_of_mem bc hmem', h3⟩
      | some p =>
        by_cases hp0 : p = 0
        · rcases ih hrest hmiss' acc with ⟨id, h1, h2, bc', hmem', h3⟩
          exact ⟨id, by simp only [hp, hp0, reduceIte]; exact h1, h2,
            bc', List.mem_cons_of_mem bc hmem', h3⟩
        · rcases ih hrest hmiss' (acc + p) with ⟨id, h1, h2, bc', hmem', h3⟩
          exact ⟨id, by simp only [hp, hp0, reduceIte]; exact h1, h2,
            bc', List.mem_cons_of_mem bc hmem', h3⟩

theorem buildTotalPrice_invalid (cat : Catalog) (bcs : List BuildComponent)
    (h : ∃ bc ∈ bcs, isValidOid bc.component_id = false) :
    ∀ acc : ℚ, ∃ e, buildTotalPrice cat bcs acc = Except.error e := by
  induction bcs with
  | nil => rcases h with ⟨bc, hmem, _⟩; cases hmem
  | cons bc rest ih =>
    intro acc
    by_cases hbc : isValidOid bc.component_id = true
    · have hrest : ∃ x ∈ rest, isValidOid x.component_id = false := by
        rcases h with ⟨x, hmem, hx⟩
        rcases List.mem_cons.mp hmem with hx1 | hx2
        · rw [hx1] at hx; rw [hbc] at hx; cases hx
        · exact ⟨x, hx2, hx⟩
      simp only [buildTotalPrice, lookupRef, hbc, if_true]
      cases hcat : cat bc.component_id with
      | none => exact ⟨ApiError.componentNotFound bc.component_id, by simp only []⟩
      | some c =>
        cases hp : c.price with
        | none => simpa only [hp] using ih hrest acc
        | some p =>
          by_cases hp0 : p = 0
          · simpa only [hp, hp0, reduceIte] using ih hrest acc
          · simpa only [hp, hp0, reduceIte] using ih hrest (acc + p)
    · have hbc' : isValidOid bc.component_id = false := by
        cases hv : isValidOid bc.component_id
        · rfl
        · exact absurd hv hbc
      exact ⟨ApiError.invalidId, by simp [buildTotalPrice, lookupRef, hbc']⟩

theorem buildTotalPrice_invalid_resolvable (cat : Catalog) (bcs : List BuildComponent)
    (hres : ∀ bc ∈ bcs, isValidOid bc.component_id = true → (cat bc.component_id).isSome = true)
    (h : ∃ bc ∈ bcs, isValidOid bc.component_id = false) :
    ∀ acc : ℚ, buildTotalPrice cat bcs acc = Except.error ApiError.invalidId := by
  induction bcs with
  | nil => rcases h with ⟨bc, hmem, _⟩; cases hmem
  | cons bc rest ih =>
    intro acc
    have hres' : ∀ x ∈ rest, isValidOid x.component_id = true → (cat x.component_id).isSome = true :=
      fun x hx => hres x (List.mem_cons_of_mem bc hx)
    by_cases hbc : isValidOid bc.component_id = true
    · have hrest : ∃ x ∈ rest, isValidOid x.component_id = false := by
        rcases h with ⟨x, hmem, hx⟩
        rcases List.mem_cons.mp hmem with hx1 | hx2
        · rw [hx1] at hx; rw [hbc] at hx; cases hx
        · exact ⟨x, hx2, hx⟩
      have hsome : (cat bc.component_id).isSome = true :=
        hres bc (List.mem_cons_self bc rest) hbc
      simp only [buildTotalPrice, lookupRef, hbc, if_true]
      cases hcat : cat bc.component_id with
      | none => rw [hcat] at hsome; cases hsome
      | some c =>
        cases hp : c.price with
        | none => simpa only [hp] using ih hres' hrest acc
        | some p =>
          by_cases hp0 : p = 0
          · simpa only [hp, hp0, reduceIte] using ih hres' hrest acc
          · simpa only [hp, hp0, reduceIte] using ih hres' hrest (acc + p)
    · have hbc' : isValidOid bc.component_id = false := by
        cases hv : isValidOid bc.component_id
        · rfl
        · exact absurd hv hbc
      simp [buildTotalPrice, lookupRef, hbc']

/-! Concrete fixtures used by the witnesses: a small catalog under
well-formed 24-hex-character identifiers, and a few builds over it. -/

/-- CPU with socket AM5, TDP 100 and price 300. -/
def cpu100 : Component :=
  { name := "cpu-a", type := "cpu", socket := some "AM5", tdp := some 100, price := some 300 }

/-- GPU with TDP 150, length 300 mm and price 150. -/
def gpu150 : Component :=
  { name := "gpu-a", type := "gpu", tdp := some 150, gpu_length_mm := some 300, price := some 150 }

/-- CPU with socket AM5 and TDP 250. -/
def cpu250 : Component :=
  { name := "cpu-b", type := "cpu", socket := some "AM5", tdp := some 250 }

/-- Motherboard with socket LGA1700. -/
def moboLga : Component :=
  { name := "mobo-a", type := "motherboard", socket := some "LGA1700" }

/-- PSU with declared wattage 500. -/
def psu500 : Component :=
  { name := "psu-a", type := "psu", psu_wattage := some 500 }

/-- Second GPU, TDP 100. -/
def gpu100 : Component :=
  { name := "gpu-b", type := "gpu", tdp := some 100 }

/-- Demo component collection. -/
def demoCat : Catalog := fun id =>
  if id = "aaaaaaaaaaaaaaaaaaaaaaaa" then some cpu100
  else if id = "bbbbbbbbbbbbbbbbbbbbbbbb" then some gpu150
  else if id = "cccccccccccccccccccccccc" then some cpu250
  else if id = "dddddddddddddddddddddddd" then some moboLga
  else if id = "eeeeeeeeeeeeeeeeeeeeeeee" then some psu500
  else if id = "0123456789abcdef01234567" then some gpu100
  else none

/-- Build referencing the TDP-100 CPU and the TDP-150 GPU. -/
def demoBuildOk : Build :=
  { title := "quiet build", is_anchor := true, likes := 7,
    total_price := some 9999,
    components := [⟨"aaaaaaaaaaaaaaaaaaaaaaaa", "cpu"⟩, ⟨"bbbbbbbbbbbbbbbbbbbbbbbb", "gpu"⟩] }

/-- Build whose CPU socket clashes with the motherboard and whose PSU is
undersized (TDP sum 400, estimate 520, PSU 500). -/
def demoBuildClash : Build :=
  { title := "clash build",
    components := [⟨"cccccccccccccccccccccccc", "cpu"⟩, ⟨"bbbbbbbbbbbbbbbbbbbbbbbb", "gpu"⟩,
      ⟨"dddddddddddddddddddddddd", "motherboard"⟩, ⟨"eeeeeeeeeeeeeeeeeeeeeeee", "psu"⟩] }

/-! Claim theorems. -/

/-- C1: on a build all of whose reference identifiers parse (a resolvable
component set), `estimate_wattage` returns 0 when no resolved component
declares a TDP, and otherwise the truncation of 1.3 times the sum of the
declared TDPs, components without a declared TDP contributing zero. -/
theorem estimate_wattage_spec (cat : Catalog) (b : Build)
    (h : ∀ bc ∈ b.components, isValidOid bc.component_id = true) :
    estimate_wattage cat b = Except.ok
      (if declaredTdpSum cat b.components = 0 then 0
       else 13 * declaredTdpSum cat b.components / 10) := by
  rw [estimate_wattage_ok cat b h]
  unfold estimateVal
  rcases Nat.eq_zero_or_pos (declaredTdpSum cat b.components) with h0 | h0
  · simp [h0]
  · have hne : declaredTdpSum cat b.components ≠ 0 := Nat.pos_iff_ne_zero.mp h0
    simp [hne, Nat.mul_comm]

/-- C1 witness: over the demo catalog the resolved TDPs are [100, 150], the
sum is 250, and the estimate is floor(1.3 * 250) = 325. -/
theorem estimate_wattage_spec_witness :
    (∀ bc ∈ demoBuildOk.components, isValidOid bc.component_id = true) ∧
    declaredTdpSum demoCat demoBuildOk.components = 250 ∧
    estimate_wattage demoCat demoBuildOk = Except.ok 325 := by
  refine ⟨by decide, by decide, ?_⟩
  rw [estimate_wattage_spec demoCat demoBuildOk (by decide)]
  decide

/-- C2: all seven rules are evaluated on every call; whenever the socket
rule (rule 1) and the PSU sizing rule (rule 5) both fire, the returned list
contains both messages, the socket message strictly before the PSU
message. -/
theorem rules_order_preserved (cat : Catalog) (b : Build) (m1 m2 : String)
    (hvalid : ∀ bc ∈ b.components, isValidOid bc.component_id = true)
    (h1 : socketRule (roleMapPure cat b.components "cpu")
        (roleMapPure cat b.components "motherboard") = some m1)
    (h5 : psuRule (roleMapPure cat b.components "psu")
        (estimateVal cat b.components) = some m2) :
    ∃ mid post, compatibility_issues cat b =
      Except.ok (m1 :: (mid ++ m2 :: post)) := by
  rw [compatibility_issues_ok cat b hvalid]
  unfold issuesOf
  rw [h1, h5]
  refine ⟨(ramRule (roleMapPure cat b.components "ram")
      (roleMapPure cat b.components "motherboard")).toList ++
    (gpuRule (roleMapPure cat b.components "gpu")
      (roleMapPure cat b.components "case")).toList ++
    (coolerRule (roleMapPure cat b.components "cooler")
      (roleMapPure cat b.components "case")).toList,
    (psuFormRule (roleMapPure cat b.components "psu")
      (roleMapPure cat b.components "case")).toList ++
    (moboFormRule (roleMapPure cat b.components "motherboard")
      (roleMapPure cat b.components "case")).toList, ?_⟩
  simp

/-- C2 witness: the clash build violates the socket rule and the PSU rule
(estimate 520 against PSU 500) and the two messages come back in rule order,
socket first. -/
theorem rules_order_preserved_witness :
    ∃ mid post, compatibility_issues demoCat demoBuildClash =
      Except.ok ("CPU socket AM5 not compatible with motherboard LGA1700" ::
        (mid ++ "PSU wattage too low. Estimated 520W, PSU is 500W" :: post)) :=
  rules_order_preserved demoCat demoBuildClash
    "CPU socket AM5 not compatible with motherboard LGA1700"
    "PSU wattage too low. Estimated 520W, PSU is 500W"
    (by decide) (by decide) (by decide)

/-- CPU whose socket is declared as the empty string. -/
def cpuEmptySocket : Component :=
  { name := "cpu-e", type := "cpu", socket := some "" }

/-- Motherboard with socket AM5. -/
def moboAm5 : Component :=
  { name := "mobo-b", type := "motherboard", socket := some "AM5" }

/-- Case declaring a maximum GPU length of 0 mm. -/
def caseZeroGpu : Component :=
  { name := "case-z", type := "case", max_gpu_length_mm := some 0 }

/-- PSU declaring a wattage of 0. -/
def psuZero : Component :=
  { name := "psu-z", type := "psu", psu_wattage := some 0 }

/-- PSU declaring a wattage of 600. -/
def psu600 : Component :=
  { name := "psu-c", type := "psu", psu_wattage := some 600 }

/-- C3 counterexample: both sockets are declared (one as the empty string)
and they differ under case-insensitive comparison, yet the socket rule
produces no violation — the code's truthiness guard treats the empty string
as absent. -/
theorem socket_rule_cex :
    cpuEmptySocket.socket = some "" ∧ moboAm5.socket = some "AM5" ∧
    pyLower "" ≠ pyLower "AM5" ∧
    socketRule (some cpuEmptySocket) (some moboAm5) = none := by
  exact ⟨rfl, rfl, by decide, by decide⟩

/-- C3 (amended): the socket rule fires iff both sockets are declared as
non-empty strings and differ under case-insensitive comparison; when it
fires its single message names both observed values, and case-insensitively
equal declared values yield no violation. -/
theorem socket_rule_spec (cpu mobo : Option Component) :
    ((∃ m, socketRule cpu mobo = some m) ↔
      (∃ c mo cs ms, cpu = some c ∧ mobo = some mo ∧
        c.socket = some cs ∧ mo.socket = some ms ∧ cs ≠ "" ∧ ms ≠ "" ∧
        pyLower cs ≠ pyLower ms)) ∧
    (∀ c mo cs ms, cpu = some c → mobo = some mo →
      c.socket = some cs → mo.socket = some ms → cs ≠ "" → ms ≠ "" →
      pyLower cs ≠ pyLower ms →
      socketRule cpu mobo =
        some ("CPU socket " ++ cs ++ " not compatible with motherboard " ++ ms)) ∧
    (∀ c mo cs ms, cpu = some c → mobo = some mo →
      c.socket = some cs → mo.socket = some ms →
      pyLower cs = pyLower ms → socketRule cpu mobo = none) := by
  refine ⟨⟨?_, ?_⟩, ?_, ?_⟩
  · rintro ⟨m, hm⟩
    cases cpu with
    | none => simp [socketRule] at hm
    | some c =>
      cases mobo with
      | none => simp [socketRule] at hm
      | some mo =>
        cases hcs : c.socket with
        | none => simp [socketRule, hcs] at hm
        | some cs =>
          cases hms : mo.socket with
          | none => simp [socketRule, hcs, hms] at hm
          | some ms =>
            by_cases he : cs = "" ∨ ms = ""
            · simp [socketRule, hcs, hms, he] at hm
            · push_neg at he
              by_cases hl : pyLower cs ≠ pyLower ms
              · exact ⟨c, mo, cs, ms, rfl, rfl, hcs, hms, he.1, he.2, hl⟩
              · simp [socketRule, hcs, hms, he.1, he.2, hl] at hm
  · rintro ⟨c, mo, cs, ms, rfl, rfl, hcs, hms, h1, h2, h3⟩
    exact ⟨"CPU socket " ++ cs ++ " not compatible with motherboard " ++ ms,
      by simp [socketRule, hcs, hms, h1, h2, h3]⟩
  · intro c mo cs ms hc hmo hcs hms h1 h2 h3
    subst hc; subst hmo
    simp [socketRule, hcs, hms, h1, h2, h3]
  · intro c mo cs ms hc hmo hcs hms hEq
    subst hc; subst hmo
    simp [socketRule, hcs, hms, hEq]

/-- C4 counterexample: the GPU declares a length of 300 mm and the case
declares a maximum of 0 mm — both attributes present as non-negative
integers with the length exceeding the maximum — yet the rule produces no
violation, because the code's truthiness guard treats the declared 0 as
absent. -/
theorem gpu_rule_cex :
    gpu150.gpu_length_mm = some 300 ∧ caseZeroGpu.max_gpu_length_mm = some 0 ∧
    300 > 0 ∧
    gpuRule (some gpu150) (some caseZeroGpu) = none := by
  exact ⟨rfl, rfl, by decide, by decide⟩

/-- C4 (amended): the GPU clearance rule fires exactly when both
`gpu_length_mm` and `max_gpu_length_mm` are declared and non-zero and the
length exceeds the maximum; absence (or a declared zero) on either side
yields no violation. -/
theorem gpu_rule_spec (gpu case_ : Option Component) :
    ((∃ m, gpuRule gpu case_ = some m) ↔
      (∃ g k gl ml, gpu = some g ∧ case_ = some k ∧
        g.gpu_length_mm = some gl ∧ k.max_gpu_length_mm = some ml ∧
        gl ≠ 0 ∧ ml ≠ 0 ∧ gl > ml)) ∧
    (∀ m, gpuRule gpu case_ = some m → m = "GPU length exceeds case maximum") ∧
    (∀ g k, gpu = some g → case_ = some k →
      g.gpu_length_mm = none ∨ k.max_gpu_length_mm = none →
      gpuRule gpu case_ = none) := by
  refine ⟨⟨?_, ?_⟩, ?_, ?_⟩
  · rintro ⟨m, hm⟩
    cases gpu with
    | none => simp [gpuRule] at hm
    | some g =>
      cases case_ with
      | none => simp [gpuRule] at hm
      | some k =>
        cases hgl : g.gpu_length_mm with
        | none => simp [gpuRule, hgl] at hm
        | some gl =>
          cases hml : k.max_gpu_length_mm with
          | none => simp [gpuRule, hgl, hml] at hm
          | some ml =>
            by_cases h0 : gl = 0 ∨ ml = 0
            · simp [gpuRule, hgl, hml, h0] at hm
            · push_neg at h0
              by_cases hgt : gl > ml
              · exact ⟨g, k, gl, ml, rfl, rfl, hgl, hml, h0.1, h0.2, hgt⟩
              · simp [gpuRule, hgl, hml, h0.1, h0.2, hgt] at hm
  · rintro ⟨g, k, gl, ml, rfl, rfl, hgl, hml, h1, h2, h3⟩
    exact ⟨"GPU length exceeds case maximum",
      by simp [gpuRule, hgl, hml, h1, h2, h3]⟩
  · intro m hm
    cases gpu with
    | none => simp [gpuRule] at hm
    | some g =>
      cases case_ with
      | none => simp [gpuRule] at hm
      | some k =>
        cases hgl : g.gpu_length_mm with
        | none => simp [gpuRule, hgl] at hm
        | some gl =>
          cases hml : k.max_gpu_length_mm with
          | none => simp [gpuRule, hgl, hml] at hm
          | some ml =>
            by_cases h0 : gl = 0 ∨ ml = 0
            · simp [gpuRule, hgl, hml, h0] at hm
            · by_cases hgt : gl > ml
              · simp [gpuRule, hgl, hml, h0, hgt] at hm
                exact hm.symm
              · simp [gpuRule, hgl, hml, h0, hgt] at hm
  · intro g k hg hk habs
    subst hg; subst hk
    rcases habs with h | h
    · simp [gpuRule, h]
    · cases hgl : g.gpu_length_mm with
      | none => simp [gpuRule, hgl]
      | some gl => simp [gpuRule, hgl, h]

/-- C5 counterexample: the PSU declares a wattage of 0, the estimate is a
non-zero 520, and 0 < 520, yet the PSU sizing rule produces no violation —
the code's truthiness guard treats the declared 0 as absent. -/
theorem psu_rule_cex :
    psuZero.psu_wattage = some 0 ∧ (0 : Nat) < 520 ∧
    psuRule (some psuZero) 520 = none := by
  exact ⟨rfl, by decide, by decide⟩

/-- C5 (amended): the PSU sizing rule fires exactly when `psu_wattage` is
declared and non-zero, the estimate is non-zero and the wattage is strictly
below the estimate; the message cites both figures (for estimate 520,
wattage 500 fires the cited message, wattage 600 does not fire). -/
theorem psu_rule_spec (psu : Option Component) (est : Nat) :
    ((∃ m, psuRule psu est = some m) ↔
      (∃ p w, psu = some p ∧ p.psu_wattage = some w ∧ w ≠ 0 ∧ est ≠ 0 ∧ w < est)) ∧
    (∀ p w, psu = some p → p.psu_wattage = some w → w ≠ 0 → est ≠ 0 → w < est →
      psuRule psu est = some ("PSU wattage too low. Estimated " ++ toString est ++
        "W, PSU is " ++ toString w ++ "W")) ∧
    psuRule (some psu500) 520 =
      some "PSU wattage too low. Estimated 520W, PSU is 500W" ∧
    psuRule (some psu600) 520 = none := by
  refine ⟨⟨?_, ?_⟩, ?_, by decide, by decide⟩
  · rintro ⟨m, hm⟩
    cases psu with
    | none => simp [psuRule] at hm
    | some p =>
      cases hw : p.psu_wattage with
      | none => simp [psuRule, hw] at hm
      | some w =>
        by_cases h0 : w = 0 ∨ est = 0
        · simp [psuRule, hw, h0] at hm
        · push_neg at h0
          by_cases hlt : w < est
          · exact ⟨p, w, rfl, hw, h0.1, h0.2, hlt⟩
          · simp [psuRule, hw, h0.1, h0.2, hlt] at hm
  · rintro ⟨p, w, rfl, hw, h1, h2, h3⟩
    exact ⟨"PSU wattage too low. Estimated " ++ toString est ++
      "W, PSU is " ++ toString w ++ "W",
      by simp [psuRule, hw, h1, h2, h3]⟩
  · intro p w hp hw h1 h2 h3
    subst hp
    simp [psuRule, hw, h1, h2, h3]

/-- Shape of a successful creation: the price loop succeeded with the
returned total and the stored document is the client document with
`total_price` overwritten. -/
theorem create_build_ok_shape (cat : Catalog) (store : List Build) (b : Build)
    (total : ℚ) (store2 : List Build)
    (h : create_build cat store b = (Except.ok total, store2)) :
    buildTotalPrice cat b.components 0 = Except.ok total ∧
    store2 = store ++ [{ b with total_price := some total }] := by
  unfold create_build at h
  cases hbp : buildTotalPrice cat b.components 0 with
  | error e => simp only [hbp] at h; cases h
  | ok t =>
    simp only [hbp] at h
    cases hci : compatibility_issues cat b with
    | error e => simp only [hci] at h; cases h
    | ok probs =>
      simp only [hci] at h
      by_cases hp : probs = []
      · rw [if_pos hp] at h
        simp only [Prod.mk.injEq, Except.ok.injEq] at h
        obtain ⟨h1, h2⟩ := h
        subst h1
        exact ⟨rfl, h2.symm⟩
      · rw [if_neg hp] at h; cases h

/-- Build referencing a well-formed identifier with no catalog entry. -/
def demoBuildMissing : Build :=
  { title := "missing ref", components := [⟨"ffffffffffffffffffffffff", "gpu"⟩] }

/-- Build referencing a malformed identifier. -/
def demoBuildBadId : Build :=
  { title := "bad ref", components := [⟨"zz", "gpu"⟩] }

/-- Build carrying the same role twice: the 100 W GPU first, the 150 W GPU
second. -/
def demoBuildDup : Build :=
  { title := "dup roles",
    components := [⟨"0123456789abcdef01234567", "gpu"⟩, ⟨"bbbbbbbbbbbbbbbbbbbbbbbb", "gpu"⟩] }

/-- C6: when every reference identifier parses but one has no catalog entry,
build creation fails with a 404 naming a missing identifier and stores
nothing, while the compatibility check raises no error; if the missing
reference is the last one carrying its role, the checker sees that role as
absent. -/
theorem resolution_strict_vs_lenient (cat : Catalog) (store : List Build)
    (b : Build) (bc : BuildComponent)
    (hvalid : ∀ x ∈ b.components, isValidOid x.component_id = true)
    (hbc : bc ∈ b.components) (hmiss : cat bc.component_id = none) :
    (∃ id, (create_build cat store b).fst = Except.error (ApiError.componentNotFound id) ∧
      cat id = none ∧ ∃ x ∈ b.components, x.component_id = id) ∧
    (create_build cat store b).snd = store ∧
    compatibility_issues cat b = Except.ok (issuesOf cat b) ∧
    (b.components.reverse.find? (fun x => x.type == bc.type) = some bc →
      roleMapPure cat b.components bc.type = none) := by
  have hmiss' : ∃ x ∈ b.components, cat x.component_id = none := ⟨bc, hbc, hmiss⟩
  rcases buildTotalPrice_missing cat b.components hvalid hmiss' 0 with ⟨id, h1, h2, h3⟩
  have hcb : create_build cat store b =
      (Except.error (ApiError.componentNotFound id), store) := by
    unfold create_build
    rw [h1]
  refine ⟨⟨id, by rw [hcb], h2, h3⟩, by rw [hcb],
    compatibility_issues_ok cat b hvalid, ?_⟩
  intro hlast
  unfold roleMapPure
  simp only [hlast]
  exact hmiss

/-- C6 witness: one well-formed reference absent from the demo catalog;
creation 404s naming it and stores nothing, the check returns a plain list
and maps the role to nothing. -/
theorem resolution_strict_vs_lenient_witness :
    (∃ id, (create_build demoCat [] demoBuildMissing).fst =
        Except.error (ApiError.componentNotFound id) ∧
      demoCat id = none ∧ ∃ x ∈ demoBuildMissing.components, x.component_id = id) ∧
    (create_build demoCat [] demoBuildMissing).snd = [] ∧
    compatibility_issues demoCat demoBuildMissing =
      Except.ok (issuesOf demoCat demoBuildMissing) ∧
    (demoBuildMissing.components.reverse.find? (fun x => x.type == "gpu") =
        some ⟨"ffffffffffffffffffffffff", "gpu"⟩ →
      roleMapPure demoCat demoBuildMissing.components "gpu" = none) :=
  resolution_strict_vs_lenient demoCat [] demoBuildMissing
    ⟨"ffffffffffffffffffffffff", "gpu"⟩ (by decide) (by decide) (by decide)

/-- C7: a reference whose identifier does not parse as a record key is fatal
to all three resolving operations: the estimator and the checker fail with
the distinct invalid-id error even in their lenient mode (never silently
skipped), and build creation fails and stores nothing (with the invalid-id
error whenever every well-formed reference resolves). -/
theorem malformed_reference_fatal (cat : Catalog) (store : List Build)
    (b : Build) (bc : BuildComponent)
    (hbc : bc ∈ b.components) (hbad : isValidOid bc.component_id = false) :
    estimate_wattage cat b = Except.error ApiError.invalidId ∧
    compatibility_issues cat b = Except.error ApiError.invalidId ∧
    (∃ e, (create_build cat store b).fst = Except.error e) ∧
    (create_build cat store b).snd = store ∧
    ((∀ x ∈ b.components, isValidOid x.component_id = true →
        (cat x.component_id).isSome = true) →
      (create_build cat store b).fst = Except.error ApiError.invalidId) := by
  have hex : ∃ x ∈ b.components, isValidOid x.component_id = false := ⟨bc, hbc, hbad⟩
  rcases buildTotalPrice_invalid cat b.components hex 0 with ⟨e, he⟩
  have hcb : create_build cat store b = (Except.error e, store) := by
    unfold create_build
    rw [he]
  refine ⟨estimate_wattage_invalid cat b hex, compatibility_issues_invalid cat b hex,
    ⟨e, by rw [hcb]⟩, by rw [hcb], ?_⟩
  intro hres
  have hinv := buildTotalPrice_invalid_resolvable cat b.components hres hex 0
  have hcb2 : create_build cat store b = (Except.error ApiError.invalidId, store) := by
    unfold create_build
    rw [hinv]
  rw [hcb2]

/-- C7 witness: the reference "zz" does not parse; the estimator, the
checker and creation all fail, creation with the invalid-id error since
there is nothing else to fail on. -/
theorem malformed_reference_fatal_witness :
    estimate_wattage demoCat demoBuildBadId = Except.error ApiError.invalidId ∧
    compatibility_issues demoCat demoBuildBadId = Except.error ApiError.invalidId ∧
    (∃ e, (create_build demoCat [] demoBuildBadId).fst = Except.error e) ∧
    (create_build demoCat [] demoBuildBadId).snd = [] ∧
    ((∀ x ∈ demoBuildBadId.components, isValidOid x.component_id = true →
        (demoCat x.component_id).isSome = true) →
      (create_build demoCat [] demoBuildBadId).fst = Except.error ApiError.invalidId) :=
  malformed_reference_fatal demoCat [] demoBuildBadId ⟨"zz", "gpu"⟩
    (by decide) (by decide)

/-- Concrete successful creation: the demo build (client total 9999, likes
7, is_anchor true) is accepted, priced at 450 = 300 + 150, and stored with
only total_price replaced. -/
theorem demo_create_ok :
    create_build demoCat [] demoBuildOk =
      (Except.ok 450, [{ demoBuildOk with total_price := some 450 }]) := by
  have v1 : isValidOid "aaaaaaaaaaaaaaaaaaaaaaaa" = true := by decide
  have v2 : isValidOid "bbbbbbbbbbbbbbbbbbbbbbbb" = true := by decide
  have e1 : demoCat "aaaaaaaaaaaaaaaaaaaaaaaa" = some cpu100 := rfl
  have e2 : demoCat "bbbbbbbbbbbbbbbbbbbbbbbb" = some gpu150 := rfl
  have h300 : ((300 : ℚ) = 0) = False := by norm_num
  have h150 : ((150 : ℚ) = 0) = False := by norm_num
  have hbp : buildTotalPrice demoCat demoBuildOk.components 0 = Except.ok 450 := by
    simp only [demoBuildOk, buildTotalPrice, lookupRef, v1, v2, if_true, e1, e2,
      cpu100, gpu150, h300, h150, if_false]
    norm_num
  have hci : compatibility_issues demoCat demoBuildOk = Except.ok [] := by
    rw [compatibility_issues_ok demoCat demoBuildOk (by decide)]
    decide
  unfold create_build
  rw [hbp, hci]
  simp

/-- C8: every successful creation stores and returns a total equal to the
sum of the current catalog prices of the referenced components, and the
client-supplied total_price has no influence on the outcome. -/
theorem total_price_recomputed (cat : Catalog) (store : List Build) (b : Build)
    (total : ℚ) (store2 : List Build)
    (h : create_build cat store b = (Except.ok total, store2)) :
    total = priceSum cat b.components ∧
    store2 = store ++ [{ b with total_price := some total }] ∧
    (∀ p q : Option ℚ, create_build cat store { b with total_price := p } =
      create_build cat store { b with total_price := q }) := by
  obtain ⟨hbp, hst⟩ := create_build_ok_shape cat store b total store2 h
  have ht := buildTotalPrice_ok_eq cat b.components 0 total hbp
  refine ⟨by simpa using ht, hst, ?_⟩
  intro p q
  rfl

/-- C8 witness: the demo build names a client total of 9999 but is stored
and returned with 450 = 300 + 150, and any two client totals produce the
same outcome. -/
theorem total_price_recomputed_witness :
    (450 : ℚ) = priceSum demoCat demoBuildOk.components ∧
    ([{ demoBuildOk with total_price := some (450 : ℚ) }] : List Build) =
      [] ++ [{ demoBuildOk with total_price := some (450 : ℚ) }] ∧
    (∀ p q : Option ℚ, create_build demoCat [] { demoBuildOk with total_price := p } =
      create_build demoCat [] { demoBuildOk with total_price := q }) :=
  total_price_recomputed demoCat [] demoBuildOk 450
    [{ demoBuildOk with total_price := some 450 }] demo_create_ok

/-- C9: with two references carrying the same role, the checker's role map
resolves that role to the second (last) reference's component only, while
the estimator still sums the declared TDPs of both references. -/
theorem duplicate_role_divergence (cat : Catalog) (bc1 bc2 : BuildComponent)
    (c1 c2 : Component) (t1 t2 : Nat) (b : Build)
    (hcomps : b.components = [bc1, bc2])
    (htype : bc1.type = bc2.type)
    (hv1 : isValidOid bc1.component_id = true)
    (hv2 : isValidOid bc2.component_id = true)
    (h1 : cat bc1.component_id = some c1) (h2 : cat bc2.component_id = some c2)
    (ht1 : c1.tdp = some t1) (ht2 : c2.tdp = some t2) :
    roleMapPure cat b.components bc1.type = some c2 ∧
    estimate_wattage cat b =
      Except.ok (if t1 + t2 = 0 then 0 else (t1 + t2) * 13 / 10) := by
  constructor
  · unfold roleMapPure
    rw [hcomps]
    simp only [List.reverse_cons, List.reverse_nil, List.nil_append,
      List.cons_append, List.find?]
    rw [← htype]
    simp only [beq_self_eq_true]
    exact h2
  · have hvalid : ∀ x ∈ b.components, isValidOid x.component_id = true := by
      rw [hcomps]
      intro x hx
      rcases List.mem_cons.mp hx with rfl | hx2
      · exact hv1
      · rcases List.mem_cons.mp hx2 with rfl | hx3
        · exact hv2
        · cases hx3
    rw [estimate_wattage_ok cat b hvalid]
    have hsum : declaredTdpSum cat b.components = t1 + t2 := by
      rw [hcomps]
      simp [declaredTdpSum, declaredTdp, h1, h2, ht1, ht2]
    unfold estimateVal
    rw [hsum]

/-- C9 witness: the duplicate-role build maps "gpu" to the 150 W GPU only,
yet its estimate 325 counts both the 100 W and the 150 W parts. -/
theorem duplicate_role_divergence_witness :
    roleMapPure demoCat demoBuildDup.components "gpu" = some gpu150 ∧
    estimate_wattage demoCat demoBuildDup =
      Except.ok (if 100 + 150 = 0 then 0 else (100 + 150) * 13 / 10) :=
  duplicate_role_divergence demoCat
    ⟨"0123456789abcdef01234567", "gpu"⟩ ⟨"bbbbbbbbbbbbbbbbbbbbbbbb", "gpu"⟩
    gpu100 gpu150 100 150 demoBuildDup rfl rfl (by decide) (by decide)
    (by decide) (by decide) rfl rfl

/-- C10: a successful creation stores the client document with every field
except total_price exactly as sent — including the likes counter and the
is_anchor flag. -/
theorem create_build_preserves_client_fields (cat : Catalog) (store : List Build)
    (b : Build) (total : ℚ) (store2 : List Build)
    (h : create_build cat store b = (Except.ok total, store2)) :
    ∃ sb, store2 = store ++ [sb] ∧
      sb.title = b.title ∧ sb.description = b.description ∧
      sb.creator_id = b.creator_id ∧ sb.is_anchor = b.is_anchor ∧
      sb.components = b.components ∧ sb.likes = b.likes ∧
      sb.total_price = some total := by
  obtain ⟨_, hst⟩ := create_build_ok_shape cat store b total store2 h
  exact ⟨{ b with total_price := some total }, hst, rfl, rfl, rfl, rfl, rfl, rfl, rfl⟩

/-- C10 witness: the demo build is sent with likes 7 and is_anchor true and
is stored that way, only total_price being replaced. -/
theorem create_build_preserves_client_fields_witness :
    ∃ sb, ([{ demoBuildOk with total_price := some (450 : ℚ) }] : List Build) = [] ++ [sb] ∧
      sb.title = demoBuildOk.title ∧ sb.description = demoBuildOk.description ∧
      sb.creator_id = demoBuildOk.creator_id ∧ sb.is_anchor = demoBuildOk.is_anchor ∧
      sb.components = demoBuildOk.components ∧ sb.likes = demoBuildOk.likes ∧
      sb.total_price = some (450 : ℚ) :=
  create_build_preserves_client_fields demoCat [] demoBuildOk 450
    [{ demoBuildOk with total_price := some 450 }] demo_create_ok

end RigArchitect

